import Mathlib

/-!
Shallow embedding of the CampusDeviceLoansSystem product-catalog service
(Cosmos DB product repository + list-products HTTP trigger), together with
proofs of the specified properties.

Sources embedded:
  * `src/infra/cosmos-product-repo.ts` — `CosmosProductRepo` with
    `toDocument`, `toDomain`, `mapCosmosError`, `create`, `get`;
  * `src/functions/list-products-http.ts` — `listProductsHttp`.

The domain type declarations (`Product`, `ProductRepo`, `RepositoryResult`,
`RepositoryError`) live in `src/domain/*`, which is not part of the provided
sources; those shapes are modelled from the spec, as marked on each
definition.

JavaScript runtime facilities the code leans on are modelled explicitly:
  * `Date.prototype.toISOString` / `new Date(string)` become `formatISO` /
    `parseISO`, on a component representation of a UTC instant;
  * `x || fallback` on strings becomes `jsOrElse` (falsy = absent or `""`);
  * comparisons against a possibly-`undefined` numeric `code` become
    `jsGe` / `jsLt` (any comparison with `undefined` is false);
  * a thrown failure is an `Except.error` carrying a `CosmosError`;
    the `try`/`catch` bodies of `create`/`get` are `tryCreate`/`tryGet`,
    and the whole methods are the total functions `create`/`get`.
-/

/-- A UTC instant, represented by its calendar components (the fields a
JavaScript `Date` exposes in UTC, at millisecond precision).  Two valid
values are equal exactly when they denote the same instant. -/
structure DateTime where
  year : Nat
  month : Nat
  day : Nat
  hour : Nat
  minute : Nat
  second : Nat
  millisecond : Nat
deriving DecidableEq, Repr

/-- The component ranges of a real calendar date that `toISOString` renders
in the standard (non-expanded) 24-character format. -/
def DateTime.valid (d : DateTime) : Prop :=
  d.year ≤ 9999 ∧ 1 ≤ d.month ∧ d.month ≤ 12 ∧ 1 ≤ d.day ∧ d.day ≤ 31 ∧
    d.hour ≤ 23 ∧ d.minute ≤ 59 ∧ d.second ≤ 59 ∧ d.millisecond ≤ 999

instance (d : DateTime) : Decidable d.valid := by
  unfold DateTime.valid; infer_instance

/-- The character for a single decimal digit. -/
def digitChar (n : Nat) : Char := Char.ofNat (48 + n)

/-- Two-digit zero-padded decimal rendering. -/
def pad2 (n : Nat) : List Char := [digitChar (n / 10), digitChar (n % 10)]

/-- Three-digit zero-padded decimal rendering. -/
def pad3 (n : Nat) : List Char :=
  [digitChar (n / 100), digitChar (n / 10 % 10), digitChar (n % 10)]

/-- Four-digit zero-padded decimal rendering. -/
def pad4 (n : Nat) : List Char :=
  [digitChar (n / 1000), digitChar (n / 100 % 10), digitChar (n / 10 % 10),
    digitChar (n % 10)]

/-- Model of `Date.prototype.toISOString` for in-range dates: the
24-character `YYYY-MM-DDTHH:mm:ss.sssZ` rendering. -/
def formatISO (d : DateTime) : String :=
  String.mk (pad4 d.year ++ ['-'] ++ pad2 d.month ++ ['-'] ++ pad2 d.day ++
    ['T'] ++ pad2 d.hour ++ [':'] ++ pad2 d.minute ++ [':'] ++
    pad2 d.second ++ ['.'] ++ pad3 d.millisecond ++ ['Z'])

/-- Numeric value of a decimal digit character, `none` on a non-digit. -/
def digitVal (c : Char) : Option Nat :=
  if 48 ≤ c.toNat ∧ c.toNat ≤ 57 then some (c.toNat - 48) else none

/-- Consume one expected separator character. -/
def expectChar (c : Char) : List Char → Option (List Char)
  | x :: rest => if x = c then some rest else none
  | [] => none

/-- Consume a two-digit decimal number. -/
def parse2 : List Char → Option (Nat × List Char)
  | a :: b :: rest => do
    let x ← digitVal a
    let y ← digitVal b
    some (x * 10 + y, rest)
  | _ => none

/-- Consume a three-digit decimal number. -/
def parse3 : List Char → Option (Nat × List Char)
  | a :: b :: c :: rest => do
    let x ← digitVal a
    let y ← digitVal b
    let z ← digitVal c
    some (x * 100 + y * 10 + z, rest)
  | _ => none

/-- Consume a four-digit decimal number. -/
def parse4 : List Char → Option (Nat × List Char)
  | a :: b :: c :: d :: rest => do
    let x ← digitVal a
    let y ← digitVal b
    let z ← digitVal c
    let w ← digitVal d
    some (x * 1000 + y * 100 + z * 10 + w, rest)
  | _ => none

/-- Consume the `YYYY-MM-DDT` prefix of the ISO form. -/
def parseDatePart (l : List Char) : Option (Nat × Nat × Nat × List Char) := do
  let (y, r1) ← parse4 l
  let r2 ← expectChar '-' r1
  let (mo, r3) ← parse2 r2
  let r4 ← expectChar '-' r3
  let (d, r5) ← parse2 r4
  let r6 ← expectChar 'T' r5
  some (y, mo, d, r6)

/-- Consume the `HH:mm:ss.sssZ` suffix of the ISO form. -/
def parseTimePart (l : List Char) : Option (Nat × Nat × Nat × Nat × List Char) := do
  let (h, r1) ← parse2 l
  let r2 ← expectChar ':' r1
  let (mi, r3) ← parse2 r2
  let r4 ← expectChar ':' r3
  let (ss, r5) ← parse2 r4
  let r6 ← expectChar '.' r5
  let (ms, r7) ← parse3 r6
  let r8 ← expectChar 'Z' r7
  some (h, mi, ss, ms, r8)

/-- Model of parsing the 24-character ISO-8601 UTC form accepted back by
`new Date(string)`; `none` models an unparseable string (JavaScript's
Invalid Date).  JavaScript additionally rejects out-of-range components;
that only shrinks the accepted set and no embedded code depends on it. -/
def parseISO (s : String) : Option DateTime := do
  let (y, mo, d, r1) ← parseDatePart s.data
  let (h, mi, ss, ms, r2) ← parseTimePart r1
  match r2 with
  | [] => some ⟨y, mo, d, h, mi, ss, ms⟩
  | _ => none

/-- The value `new Date(s)` yields in this model: the parsed instant, or a
sentinel (no valid date has month 0) standing for JavaScript's Invalid
Date.  The spec leaves behaviour on malformed stored strings an open
question; nothing proved here depends on the sentinel. -/
def jsNewDate (s : String) : DateTime :=
  (parseISO s).getD ⟨0, 0, 0, 0, 0, 0, 0⟩

/-- Modelled from the spec: the `Product` domain entity of
`src/domain/product.ts` (not among the provided sources): `id`, `name`,
`price` (numeric), `category`, optional `description`, `inStock`,
`createdAt` timestamp. -/
structure Product where
  id : String
  name : String
  price : ℚ
  category : String
  description : Option String
  inStock : Bool
  createdAt : DateTime
deriving DecidableEq, Repr

/-- Modelled from the spec: the closed `RepositoryError` code enumeration
of `src/domain/product-repo.ts` (not among the provided sources). -/
inductive RepoErrorCode where
  | ALREADY_EXISTS
  | NOT_FOUND
  | VALIDATION_ERROR
  | PERSISTENCE_ERROR
deriving DecidableEq, Repr

/-- Modelled from the spec: `RepositoryError` is `{code, message}` with
`code` drawn from the closed enumeration. -/
structure RepositoryError where
  code : RepoErrorCode
  message : String
deriving DecidableEq, Repr

/-- Modelled from the spec: `RepositoryResult<T>` of
`src/domain/product-repo.ts` (not among the provided sources), kept in the
TypeScript object shape — a `success` flag with independently optional
`data` and `error` fields — so that the spec's exclusivity invariant
("exactly one variant populated") is a provable property of the adapter
rather than true by construction. -/
structure RepositoryResult (T : Type) where
  success : Bool
  data : Option T
  error : Option RepositoryError
deriving DecidableEq, Repr

/-- The spec's `RepositoryResult` exclusivity invariant: exactly one
variant populated, never both, never neither. -/
def RepositoryResult.exclusive {T : Type} (r : RepositoryResult T) : Prop :=
  (r.success = true ∧ r.data.isSome ∧ r.error = none) ∨
    (r.success = false ∧ r.data = none ∧ r.error.isSome)

/-- The document shape stored in Cosmos DB (`ProductDocument` in
`cosmos-product-repo.ts`): the domain fields, `createdAt` as an ISO string,
plus the five optional Cosmos system properties. -/
structure ProductDocument where
  id : String
  name : String
  price : ℚ
  category : String
  description : Option String
  inStock : Bool
  createdAt : String
  _rid : Option String
  _self : Option String
  _etag : Option String
  _attachments : Option String
  _ts : Option Int
deriving DecidableEq, Repr

/-- An opaque thrown failure as `mapCosmosError` inspects it: a possibly
absent numeric `code` (`none` also covers a non-numeric code, which every
numeric comparison in the source treats exactly like `undefined`) and a
possibly absent `message`. -/
structure CosmosError where
  code : Option Int
  message : Option String
deriving DecidableEq, Repr

/-- JavaScript `x >= b` where `x` may be `undefined` (`none`): comparison
with `undefined` is false. -/
def jsGe : Option Int → Int → Bool
  | some a, b => b ≤ a
  | none, _ => false

/-- JavaScript `x < b` where `x` may be `undefined` (`none`): comparison
with `undefined` is false. -/
def jsLt : Option Int → Int → Bool
  | some a, b => a < b
  | none, _ => false

/-- JavaScript `m || fallback` on a string-valued field: the fallback is
taken when the field is absent or the empty string (the only falsy
string). -/
def jsOrElse (m : Option String) (fallback : String) : String :=
  match m with
  | some s => if s = "" then fallback else s
  | none => fallback

namespace CosmosProductRepo

/-- Embeds `CosmosProductRepo.toDocument`: copies the domain fields and serializes
`createdAt` with `toISOString`; the five system properties are not set. -/
def toDocument (product : Product) : ProductDocument :=
  { id := product.id
    name := product.name
    price := product.price
    category := product.category
    description := product.description
    inStock := product.inStock
    createdAt := formatISO product.createdAt
    _rid := none
    _self := none
    _etag := none
    _attachments := none
    _ts := none }

/-- Embeds `CosmosProductRepo.toDomain`: copies the domain-relevant fields and
parses `createdAt` with `new Date(...)`; system properties are dropped. -/
def toDomain (document : ProductDocument) : Product :=
  { id := document.id
    name := document.name
    price := document.price
    category := document.category
    description := document.description
    inStock := document.inStock
    createdAt := jsNewDate document.createdAt }

/-- Embeds `CosmosProductRepo.mapCosmosError`: the four-branch translation from a
backend failure to a `RepositoryError`, first match wins. -/
def mapCosmosError (error : CosmosError) : RepositoryError :=
  if error.code = some 409 then
    { code := .ALREADY_EXISTS
      message := "A product with this ID already exists" }
  else if error.code = some 404 then
    { code := .NOT_FOUND
      message := "Product not found" }
  else if jsGe error.code 400 && jsLt error.code 500 then
    { code := .VALIDATION_ERROR
      message := jsOrElse error.message "Invalid request" }
  else
    { code := .PERSISTENCE_ERROR
      message := jsOrElse error.message
        "An error occurred while accessing the database" }

/-- A store call (`container.items.create` or `container.item(..).read`)
either returns an `ItemResponse` whose `resource` may be absent, or throws
a `CosmosError`. -/
abbrev StoreCall := Except CosmosError (Option ProductDocument)

/-- The `try` body of `CosmosProductRepo.create`, as a computation that can
propagate a thrown store failure: map the product to a document, insert it
(the store behaviour is the parameter), and branch on whether the response
carries a resource. -/
def tryCreate (store : ProductDocument → StoreCall) (product : Product) :
    Except CosmosError (RepositoryResult Product) := do
  let document := toDocument product
  let response ← store document
  match response with
  | some resource =>
    pure { success := true, data := some (toDomain resource), error := none }
  | none =>
    pure { success := false, data := none,
           error := some { code := .PERSISTENCE_ERROR,
                           message := "Failed to create product - no resource returned" } }

/-- Embeds `CosmosProductRepo.create`: the whole method — the `try` body with the
`catch` clause that converts any thrown failure through `mapCosmosError`.
Total: it always returns a `RepositoryResult`. -/
def create (store : ProductDocument → StoreCall) (product : Product) :
    RepositoryResult Product :=
  match tryCreate store product with
  | .ok result => result
  | .error error =>
    { success := false, data := none, error := some (mapCosmosError error) }

/-- The `try` body of `CosmosProductRepo.get`: the read is issued as
`container.item(id, id).read()` — the store behaviour takes the item id and
the partition key as separate arguments, and `get` passes the same value
for both. -/
def tryGet (store : String → String → StoreCall) (id : String) :
    Except CosmosError (RepositoryResult Product) := do
  let response ← store id id
  match response with
  | some resource =>
    pure { success := true, data := some (toDomain resource), error := none }
  | none =>
    pure { success := false, data := none,
           error := some { code := .NOT_FOUND,
                           message := "Product with ID '" ++ id ++ "' not found" } }

/-- Embeds `CosmosProductRepo.get`: the whole method — the `try` body with the
`catch` clause that converts any thrown failure through `mapCosmosError`.
Total: it always returns a `RepositoryResult`. -/
def get (store : String → String → StoreCall) (id : String) :
    RepositoryResult Product :=
  match tryGet store id with
  | .ok result => result
  | .error error =>
    { success := false, data := none, error := some (mapCosmosError error) }

end CosmosProductRepo

/-- Modelled from the spec: the `ProductRepo` abstraction of
`src/domain/product-repo.ts` (not among the provided sources) — the two
operations a storage backend must support.  The handler below holds such a
repository (the module-level `productRepo`) without ever consulting it. -/
structure ProductRepo where
  create : Product → RepositoryResult Product
  get : String → RepositoryResult Product

/-- The `metadata` object of `ListProductsResponse`. -/
structure ListMetadata where
  count : Nat
  timestamp : String
deriving DecidableEq, Repr

/-- The `error` object of `ListProductsResponse` (its `code` is a free
string, unlike the repository taxonomy). -/
structure HandlerError where
  code : String
  message : String
deriving DecidableEq, Repr

/-- Embeds `ListProductsResponse` from `list-products-http.ts`: a `success` flag
with optional `data`, `error` and `metadata` fields. -/
structure ListProductsResponse where
  success : Bool
  data : Option (List Product)
  error : Option HandlerError
  metadata : Option ListMetadata
deriving DecidableEq, Repr

/-- Embeds `HttpResponseInit` as the handler builds it: status, headers in order,
and the response object (its `JSON.stringify` serialization is external
encoding and is not modelled). -/
structure HttpResponseInit where
  status : Nat
  headers : List (String × String)
  body : ListProductsResponse
deriving DecidableEq, Repr

/-- The hard-coded `mockProducts` array of `listProductsHttp`; the two
`new Date()` calls are modelled by the clock parameter `now`. -/
def mockProducts (now : DateTime) : List Product :=
  [ { id := "PROD-001"
      name := "Sample Product 1"
      price := 99.99
      category := "Electronics"
      description := some "A sample product for demonstration"
      inStock := true
      createdAt := now }
  , { id := "PROD-002"
      name := "Sample Product 2"
      price := 49.99
      category := "Accessories"
      description := none
      inStock := false
      createdAt := now } ]

/-- Embeds `listProductsHttp` on its non-exceptional path: builds the mock list,
wraps it in a success envelope with `count` and `timestamp` metadata, and
returns a 200 response with JSON content type and caching disabled.  The
module-level repository is in scope as `productRepo` but never consulted;
`now` models the clock read by the `new Date()` calls.  (The `catch`
branch of the source returns a fixed 500 `INTERNAL_ERROR` envelope; in
this pure model the `try` body cannot throw, so only the success path is
reachable.) -/
def listProductsHttp (productRepo : ProductRepo) (now : DateTime) :
    HttpResponseInit :=
  let mock := mockProducts now
  { status := 200
    headers := [("Content-Type", "application/json"),
                ("Cache-Control", "no-cache")]
    body := { success := true
              data := some mock
              error := none
              metadata := some { count := mock.length
                                 timestamp := formatISO now } } }

/-- A concrete instant used by the witness theorems. -/
def sampleDate : DateTime := ⟨2024, 1, 15, 10, 30, 5, 7⟩

/-- A concrete product used by the witness theorems. -/
def sampleProduct : Product :=
  { id := "PROD-100"
    name := "Widget"
    price := 10
    category := "Tools"
    description := none
    inStock := true
    createdAt := sampleDate }

/-- A concrete document used by the witness theorems. -/
def sampleDocument : ProductDocument :=
  { id := "PROD-100"
    name := "Widget"
    price := 10
    category := "Tools"
    description := none
    inStock := true
    createdAt := "2024-01-15T10:30:05.007Z"
    _rid := none
    _self := none
    _etag := none
    _attachments := none
    _ts := none }

section RoundTripLemmas

/-- A digit character parses back to its value. -/
theorem digitVal_digitChar (n : Nat) (h : n < 10) :
    digitVal (digitChar n) = some n := by
  interval_cases n <;> decide

/-- The expected separator is consumed. -/
theorem expectChar_cons (c : Char) (rest : List Char) :
    expectChar c (c :: rest) = some rest := by
  simp [expectChar]

/-- Unfolding lemma: `(String.mk l).data = l`. -/
theorem String_data_mk (l : List Char) : (String.mk l).data = l := rfl

/-- A two-digit rendering parses back to its value. -/
theorem parse2_pad2 (n : Nat) (h : n < 100) (rest : List Char) :
    parse2 (pad2 n ++ rest) = some (n, rest) := by
  have h1 : n / 10 < 10 := by omega
  have h2 : n % 10 < 10 := by omega
  simp [pad2, parse2, digitVal_digitChar _ h1, digitVal_digitChar _ h2]
  omega

/-- A three-digit rendering parses back to its value. -/
theorem parse3_pad3 (n : Nat) (h : n < 1000) (rest : List Char) :
    parse3 (pad3 n ++ rest) = some (n, rest) := by
  have h1 : n / 100 < 10 := by omega
  have h2 : n / 10 % 10 < 10 := by omega
  have h3 : n % 10 < 10 := by omega
  simp [pad3, parse3, digitVal_digitChar _ h1, digitVal_digitChar _ h2,
    digitVal_digitChar _ h3]
  omega

/-- A four-digit rendering parses back to its value. -/
theorem parse4_pad4 (n : Nat) (h : n < 10000) (rest : List Char) :
    parse4 (pad4 n ++ rest) = some (n, rest) := by
  have h1 : n / 1000 < 10 := by omega
  have h2 : n / 100 % 10 < 10 := by omega
  have h3 : n / 10 % 10 < 10 := by omega
  have h4 : n % 10 < 10 := by omega
  simp [pad4, parse4, digitVal_digitChar _ h1, digitVal_digitChar _ h2,
    digitVal_digitChar _ h3, digitVal_digitChar _ h4]
  omega

/-- The date half of the ISO rendering parses back to its components. -/
theorem parseDatePart_format (y mo d : Nat) (hy : y < 10000)
    (hmo : mo < 100) (hd : d < 100) (rest : List Char) :
    parseDatePart
        (pad4 y ++ '-' :: (pad2 mo ++ '-' :: (pad2 d ++ 'T' :: rest))) =
      some (y, mo, d, rest) := by
  simp [parseDatePart, parse4_pad4 y hy, parse2_pad2 mo hmo,
    parse2_pad2 d hd, expectChar_cons]

/-- The time half of the ISO rendering parses back to its components. -/
theorem parseTimePart_format (h mi ss ms : Nat) (hh : h < 100)
    (hmi : mi < 100) (hss : ss < 100) (hms : ms < 1000) :
    parseTimePart
        (pad2 h ++ ':' :: (pad2 mi ++ ':' :: (pad2 ss ++ '.' ::
          (pad3 ms ++ ['Z'])))) =
      some (h, mi, ss, ms, []) := by
  simp [parseTimePart, parse2_pad2 h hh, parse2_pad2 mi hmi,
    parse2_pad2 ss hss, parse3_pad3 ms hms, expectChar_cons]

/-- Parsing inverts formatting on every valid instant. -/
theorem parseISO_formatISO (d : DateTime) (h : d.valid) :
    parseISO (formatISO d) = some d := by
  obtain ⟨year, month, day, hour, minute, second, millisecond⟩ := d
  simp only [DateTime.valid] at h
  obtain ⟨h1, h2, h3, h4, h5, h6, h7, h8, h9⟩ := h
  simp only [formatISO, parseISO, String_data_mk, List.append_assoc,
    List.singleton_append]
  simp [parseDatePart_format year month day (by omega) (by omega) (by omega),
    parseTimePart_format hour minute second millisecond (by omega) (by omega)
      (by omega) (by omega)]

end RoundTripLemmas

open CosmosProductRepo

/-- C1: `mapCosmosError` follows the four-branch precedence policy: 409
gives `ALREADY_EXISTS` with a fixed message, 404 gives `NOT_FOUND` with a
fixed message, any other 4xx gives `VALIDATION_ERROR` passing the input
message through (fallback "Invalid request"), and everything else —
including failures with no numeric code — gives `PERSISTENCE_ERROR`
passing the message through (fallback to the generic database-access
message).  The four guards below are mutually exclusive and cover every
input, so exactly one branch applies. -/
theorem mapCosmosError_branch_policy (e : CosmosError) :
    (e.code = some 409 →
      mapCosmosError e =
        { code := .ALREADY_EXISTS
          message := "A product with this ID already exists" }) ∧
    (e.code = some 404 →
      mapCosmosError e = { code := .NOT_FOUND, message := "Product not found" }) ∧
    (∀ c : Int, e.code = some c → 400 ≤ c → c < 500 → c ≠ 409 → c ≠ 404 →
      mapCosmosError e =
        { code := .VALIDATION_ERROR
          message := jsOrElse e.message "Invalid request" }) ∧
    ((∀ c : Int, e.code = some c → c ≠ 409 ∧ c ≠ 404 ∧ ¬(400 ≤ c ∧ c < 500)) →
      mapCosmosError e =
        { code := .PERSISTENCE_ERROR
          message := jsOrElse e.message
            "An error occurred while accessing the database" }) := by
  obtain ⟨code, message⟩ := e
  refine ⟨?_, ?_, ?_, ?_⟩
  · intro h
    simp only at h
    simp [mapCosmosError, h]
  · intro h
    simp only at h
    simp [mapCosmosError, h]
  · intro c h h1 h2 h3 h4
    simp only at h
    simp [mapCosmosError, h, h3, h4, jsGe, jsLt, h1, h2]
  · intro hall
    match code with
    | none => simp [mapCosmosError, jsGe, jsLt]
    | some c =>
      obtain ⟨n1, n2, n3⟩ := hall c rfl
      have hb : ¬(400 ≤ c ∧ c < 500) := n3
      simp [mapCosmosError, n1, n2, jsGe, jsLt]
      omega

/-- C1 witness: a 409 failure is translated to the fixed
`ALREADY_EXISTS` error. -/
theorem mapCosmosError_branch_policy_witness :
    mapCosmosError ⟨some 409, some "ignored"⟩ =
      { code := .ALREADY_EXISTS
        message := "A product with this ID already exists" } :=
  (mapCosmosError_branch_policy ⟨some 409, some "ignored"⟩).1 rfl

/-- C2: `create` returns success with the domain image of the returned
resource when the store responds with a resource body; the defensive
`PERSISTENCE_ERROR` with its fixed message when the store responds
successfully but with no resource; and the translated error when the store
call throws. -/
theorem create_behavior (store : ProductDocument → StoreCall) (p : Product) :
    (∀ r, store (toDocument p) = .ok (some r) →
      create store p =
        { success := true
          data := some (toDomain r)
          error := none }) ∧
    (store (toDocument p) = .ok none →
      create store p =
        { success := false
          data := none
          error := some
            { code := .PERSISTENCE_ERROR
              message := "Failed to create product - no resource returned" } }) ∧
    (∀ err, store (toDocument p) = .error err →
      create store p =
        { success := false
          data := none
          error := some (mapCosmosError err) }) := by
  refine ⟨?_, ?_, ?_⟩
  · intro r h
    simp [create, tryCreate, h, bind, Except.bind, pure, Except.pure]
  · intro h
    simp [create, tryCreate, h, bind, Except.bind, pure, Except.pure]
  · intro err h
    simp [create, tryCreate, h, bind, Except.bind, pure, Except.pure]

/-- C2 witness: a store that reports success without a resource body makes
`create` return the defensive `PERSISTENCE_ERROR`. -/
theorem create_behavior_witness :
    create (fun _ => .ok none) sampleProduct =
      { success := false
        data := none
        error := some
          { code := .PERSISTENCE_ERROR
            message := "Failed to create product - no resource returned" } } :=
  (create_behavior (fun _ => .ok none) sampleProduct).2.1 rfl

/-- C3: the lookup issued by `get` passes the same value for the item id
and the partition key (any two stores agreeing at that diagonal point give
the same result); a resource body maps to success; a successful empty
response gives `NOT_FOUND` with the requested id interpolated into the
message; and a thrown failure is translated. -/
theorem get_behavior (store : String → String → StoreCall) (id : String) :
    (∀ r, store id id = .ok (some r) →
      get store id =
        { success := true
          data := some (toDomain r)
          error := none }) ∧
    (store id id = .ok none →
      get store id =
        { success := false
          data := none
          error := some
            { code := .NOT_FOUND
              message := "Product with ID '" ++ id ++ "' not found" } }) ∧
    (∀ err, store id id = .error err →
      get store id =
        { success := false
          data := none
          error := some (mapCosmosError err) }) ∧
    (∀ store2 : String → String → StoreCall,
      store2 id id = store id id → get store2 id = get store id) := by
  refine ⟨?_, ?_, ?_, ?_⟩
  · intro r h
    simp [CosmosProductRepo.get, CosmosProductRepo.tryGet, h, bind, Except.bind, pure, Except.pure]
  · intro h
    simp [CosmosProductRepo.get, CosmosProductRepo.tryGet, h, bind, Except.bind, pure, Except.pure]
  · intro err h
    simp [CosmosProductRepo.get, CosmosProductRepo.tryGet, h, bind, Except.bind, pure, Except.pure]
  · intro store2 h
    simp [CosmosProductRepo.get, CosmosProductRepo.tryGet, h]

/-- C3 witness: a store that reports success without a resource body makes
`get` return `NOT_FOUND` with the id interpolated. -/
theorem get_behavior_witness :
    get (fun _ _ => .ok none) "PROD-404" =
      { success := false
        data := none
        error := some
          { code := .NOT_FOUND
            message := "Product with ID 'PROD-404' not found" } } :=
  (get_behavior (fun _ _ => .ok none) "PROD-404").2.1 rfl

/-- C6: whatever the store does — return a resource, return an empty
response, or throw any failure — `create` and `get` complete with a
`RepositoryResult` (the three cases below are exhaustive), and every
thrown failure is caught at the adapter boundary and converted to a
`{success: false, error}` result through `mapCosmosError`; no raw failure
crosses the boundary.  (In this embedding the methods are total functions
into `RepositoryResult`, so returning a value is part of their type; the
case split shows how each store behaviour is absorbed.) -/
theorem adapter_absorbs_store_failures (storeC : ProductDocument → StoreCall)
    (storeG : String → String → StoreCall) (p : Product) (id : String) :
    (match storeC (toDocument p) with
     | .ok (some r) =>
       create storeC p =
         { success := true
           data := some (toDomain r)
           error := none }
     | .ok none =>
       create storeC p =
         { success := false
           data := none
           error := some
             { code := .PERSISTENCE_ERROR
               message := "Failed to create product - no resource returned" } }
     | .error err =>
       create storeC p =
         { success := false
           data := none
           error := some (mapCosmosError err) }) ∧
    (match storeG id id with
     | .ok (some r) =>
       get storeG id =
         { success := true
           data := some (toDomain r)
           error := none }
     | .ok none =>
       get storeG id =
         { success := false
           data := none
           error := some
             { code := .NOT_FOUND
               message := "Product with ID '" ++ id ++ "' not found" } }
     | .error err =>
       get storeG id =
         { success := false
           data := none
           error := some (mapCosmosError err) }) := by
  constructor
  · match h : storeC (toDocument p) with
    | .ok (some r) =>
      simp [create, tryCreate, h, bind, Except.bind, pure, Except.pure]
    | .ok none =>
      simp [create, tryCreate, h, bind, Except.bind, pure, Except.pure]
    | .error err =>
      simp [create, tryCreate, h, bind, Except.bind, pure, Except.pure]
  · match h : storeG id id with
    | .ok (some r) =>
      simp [CosmosProductRepo.get, CosmosProductRepo.tryGet, h, bind, Except.bind, pure, Except.pure]
    | .ok none =>
      simp [CosmosProductRepo.get, CosmosProductRepo.tryGet, h, bind, Except.bind, pure, Except.pure]
    | .error err =>
      simp [CosmosProductRepo.get, CosmosProductRepo.tryGet, h, bind, Except.bind, pure, Except.pure]

/-- C8: every result `create` or `get` returns, for every store behaviour,
has exactly one variant populated: success with data and no error, or
failure with an error and no data. -/
theorem adapter_results_exclusive (storeC : ProductDocument → StoreCall)
    (storeG : String → String → StoreCall) (p : Product) (id : String) :
    (create storeC p).exclusive ∧ (get storeG id).exclusive := by
  constructor
  · match h : storeC (toDocument p) with
    | .ok (some r) =>
      left
      simp [create, tryCreate, h, bind, Except.bind, pure, Except.pure]
    | .ok none =>
      right
      simp [create, tryCreate, h, bind, Except.bind, pure, Except.pure]
    | .error err =>
      right
      simp [create, tryCreate, h, bind, Except.bind, pure, Except.pure]
  · match h : storeG id id with
    | .ok (some r) =>
      left
      simp [CosmosProductRepo.get, CosmosProductRepo.tryGet, h, bind, Except.bind, pure, Except.pure]
    | .ok none =>
      right
      simp [CosmosProductRepo.get, CosmosProductRepo.tryGet, h, bind, Except.bind, pure, Except.pure]
    | .error err =>
      right
      simp [CosmosProductRepo.get, CosmosProductRepo.tryGet, h, bind, Except.bind, pure, Except.pure]

/-- C4: for every product whose `createdAt` is a valid instant, mapping to
a document and back reproduces every domain field exactly; `createdAt`
survives because the ISO-8601 serialization written by `toDocument` parses
back to the same instant in `toDomain`. -/
theorem mapper_roundtrip (p : Product) (h : p.createdAt.valid) :
    toDomain (toDocument p) = p := by
  obtain ⟨id, name, price, category, description, inStock, createdAt⟩ := p
  simp only at h
  simp [CosmosProductRepo.toDomain, CosmosProductRepo.toDocument, jsNewDate,
    parseISO_formatISO _ h]

/-- C4 witness: the round trip at a concrete valid product. -/
theorem mapper_roundtrip_witness :
    sampleProduct.createdAt.valid ∧
      toDomain (toDocument sampleProduct) = sampleProduct :=
  ⟨by decide, mapper_roundtrip sampleProduct (by decide)⟩

/-- C5: on its non-exceptional path the list handler always answers 200
with JSON content type and caching disabled, a success envelope whose data
is the fixed two-item sample payload (ids PROD-001 and PROD-002) and whose
metadata carries the count and a timestamp — and the repository in scope
is never consulted (the response is the same for every repository). -/
theorem list_endpoint_static (repo : ProductRepo) (now : DateTime) :
    (listProductsHttp repo now).status = 200 ∧
    (listProductsHttp repo now).headers =
      [("Content-Type", "application/json"), ("Cache-Control", "no-cache")] ∧
    (listProductsHttp repo now).body.success = true ∧
    (listProductsHttp repo now).body.error = none ∧
    (listProductsHttp repo now).body.data = some (mockProducts now) ∧
    (mockProducts now).map Product.id = ["PROD-001", "PROD-002"] ∧
    (listProductsHttp repo now).body.metadata =
      some { count := (mockProducts now).length
             timestamp := formatISO now } ∧
    ∀ repo2 : ProductRepo, listProductsHttp repo2 now = listProductsHttp repo now := by
  refine ⟨rfl, rfl, rfl, rfl, rfl, ?_, rfl, fun repo2 => rfl⟩
  simp [mockProducts]

/-- C7: `toDomain` is independent of the five storage metadata fields —
two documents agreeing on the domain fields map to equal products — and
`toDocument` leaves all five metadata fields absent. -/
theorem mapper_metadata_isolation :
    (∀ d1 d2 : ProductDocument, d1.id = d2.id → d1.name = d2.name →
      d1.price = d2.price → d1.category = d2.category →
      d1.description = d2.description → d1.inStock = d2.inStock →
      d1.createdAt = d2.createdAt →
      toDomain d1 = toDomain d2) ∧
    (∀ p : Product, (toDocument p)._rid = none ∧ (toDocument p)._self = none ∧
      (toDocument p)._etag = none ∧ (toDocument p)._attachments = none ∧
      (toDocument p)._ts = none) := by
  constructor
  · intro d1 d2 h1 h2 h3 h4 h5 h6 h7
    simp [CosmosProductRepo.toDomain, h1, h2, h3, h4, h5, h6, h7]
  · intro p
    exact ⟨rfl, rfl, rfl, rfl, rfl⟩

/-- C7 witness: changing only storage metadata does not change the mapped
product. -/
theorem mapper_metadata_isolation_witness :
    toDomain { sampleDocument with _etag := some "xyz", _ts := some 42 } =
      toDomain sampleDocument :=
  mapper_metadata_isolation.1 _ sampleDocument rfl rfl rfl rfl rfl rfl rfl

/-- C9 (implicit): the message fallback of the error translator triggers
on any falsy message, the empty string included — an empty-string message
on a generic 4xx failure yields the fixed "Invalid request", and an
empty-string message on any failure outside the 4xx range yields the fixed
generic database-access message. -/
theorem mapCosmosError_falsy_fallback (e : CosmosError) :
    (∀ c : Int, e.code = some c → 400 ≤ c → c < 500 → c ≠ 404 → c ≠ 409 →
      e.message = some "" →
      mapCosmosError e =
        { code := .VALIDATION_ERROR
          message := "Invalid request" }) ∧
    ((∀ c : Int, e.code = some c → ¬(400 ≤ c ∧ c < 500)) →
      e.message = some "" →
      mapCosmosError e =
        { code := .PERSISTENCE_ERROR
          message := "An error occurred while accessing the database" }) := by
  obtain ⟨code, message⟩ := e
  constructor
  · intro c h h1 h2 h3 h4 hm
    simp only at h hm
    subst h
    subst hm
    simp [mapCosmosError, h3, h4, jsGe, jsLt, h1, h2, jsOrElse]
  · intro hall hm
    simp only at hm
    subst hm
    match code with
    | none => simp [mapCosmosError, jsGe, jsLt, jsOrElse]
    | some c =>
      have hb : ¬(400 ≤ c ∧ c < 500) := hall c rfl
      have h409 : c ≠ 409 := by omega
      have h404 : c ≠ 404 := by omega
      simp [mapCosmosError, h409, h404, jsGe, jsLt, jsOrElse]
      omega

/-- C9 witness: a 400 failure with an empty-string message falls back to
"Invalid request". -/
theorem mapCosmosError_falsy_fallback_witness :
    mapCosmosError ⟨some 400, some ""⟩ =
      { code := .VALIDATION_ERROR
        message := "Invalid request" } :=
  (mapCosmosError_falsy_fallback ⟨some 400, some ""⟩).1 400 rfl (by decide)
    (by decide) (by decide) (by decide) rfl

/-- C10 (implicit): in the success response of the list handler the
`metadata.count` field always equals the length of the `data` array, both
being computed from the same `mockProducts` list. -/
theorem list_endpoint_count_consistent (repo : ProductRepo) (now : DateTime) :
    ∃ products metadata,
      (listProductsHttp repo now).body.data = some products ∧
      (listProductsHttp repo now).body.metadata = some metadata ∧
      metadata.count = products.length :=
  ⟨mockProducts now, ⟨(mockProducts now).length, formatISO now⟩, rfl, rfl, rfl⟩
